import Mathlib

/-!
Verification of the snapd initramfs mount generation code
(`cmd/snap-bootstrap/cmd_initramfs_mounts.go`).

The Go code is embedded shallowly: each generator becomes a pure function
of an environment record bundling the external collaborators it consults
(the mount probe `osutil.IsMounted`, the Modeenv reader/writer from the
`boot` package, and the seed loader from the `seed`/`snap` packages).
An invocation's observable behaviour is a `GenOut`: the mount tuples it
printed to stdout, the Modeenv write it performed (if any), and the error
it returned (if any).  Lines printed before a failure are kept, matching
the Go code's immediate `fmt.Fprintf` calls.
-/

namespace Snapd

/-- Decidable equality for `Except`, so that concrete results can be
evaluated. -/
instance exceptDecEq (ε α : Type) [DecidableEq ε] [DecidableEq α] :
    DecidableEq (Except ε α)
| Except.error a, Except.error b =>
  if h : a = b then Decidable.isTrue (h ▸ rfl)
  else Decidable.isFalse (by intro hc; injection hc; contradiction)
| Except.error _, Except.ok _ => Decidable.isFalse (by intro hc; cases hc)
| Except.ok _, Except.error _ => Decidable.isFalse (by intro hc; cases hc)
| Except.ok a, Except.ok b =>
  if h : a = b then Decidable.isTrue (h ▸ rfl)
  else Decidable.isFalse (by intro hc; injection hc; contradiction)

/-- Snap types distinguished by the `switch info.GetType()` in
`generateMountsModeInstall`; `app` stands for any other type, which the
switch ignores. -/
inductive SnapType where
| base : SnapType
| kernel : SnapType
| snapd : SnapType
| app : SnapType
deriving DecidableEq

/-- One essential snap as returned by the seed loader: its on-disk path
and its declared type (`essentialSnap.Path`, `info.GetType()`). -/
structure EssentialSnap where
  path : String
  typ : SnapType
deriving DecidableEq

/-- The `boot.Modeenv` record as used by this code: `Mode`,
`RecoverySystem` (written by install mode) and `Base`, `Kernel`
(read by run mode). -/
structure Modeenv where
  mode : String
  recoverySystem : String
  base : String
  kernel : String
deriving DecidableEq

/-- One emitted mount instruction: the Go code prints either
`<source> <target>` or `--type=<fsType> <source> <target>`. -/
structure MountTuple where
  source : String
  target : String
  fsType : Option String
deriving DecidableEq

/-- Observable result of one generator invocation: the mount tuples
printed to stdout (in print order, kept also when an error follows),
the Modeenv write performed (directory and record), and the returned
error message, `none` meaning the invocation returned nil. -/
structure GenOut where
  lines : List MountTuple
  written : Option (String × Modeenv)
  errMsg : Option String
deriving DecidableEq

/-- External collaborators consumed by the generators.
`isMounted` is `osutil.IsMounted`.  `readModeenv` is `boot.ReadModeenv`
and `writeModeenv` is `boot.Modeenv.Write` (Modelled from the spec: the
Modeenv store is the persisted record interface of spec section 3; its
serialization lives outside `src/`).  `seedEssentials` folds
`seed.Open`, `Seed.LoadAssertions`, `Seed.LoadMeta` and the per-snap
`snap.Open`/`ReadInfoFromSnapFile` calls into one verified-seed query
(Modelled from the spec: the Seed Loader collaborator of spec sections
2 and 6, `resolve(label) -> verified essential components or error`);
any failure in that pipeline is the `Except.error` case. -/
structure Env where
  isMounted : String → Except String Bool
  readModeenv : String → Except String Modeenv
  seedEssentials : String → String → Except String (List EssentialSnap)
  writeModeenv : String → Modeenv → Except String Unit

/-- The runtime mount root, Go variable `runMnt`. -/
def runMnt : String := "/run/mnt"

/-- Modelled from the spec: the data partition's snap-blob directory
(`dirs.SnapBlobDir` from the `dirs` package, not under `src/`), the
standard snapd blob location. -/
def snapBlobDir : String := "/var/lib/snapd/snaps"

/-- Characters after the last slash, accumulating the current component
in reverse. -/
def baseAux : List Char → List Char → List Char
| [], acc => acc.reverse
| c :: cs, acc => if c = '/' then baseAux cs [] else baseAux cs (c :: acc)

/-- `filepath.Base`: the last component of a slash-separated path
(sufficient for the clean absolute paths this code builds). -/
def basename (s : String) : String :=
  String.mk (baseAux s.data [])

/-- Whether the second character list is a leading segment of the
first. -/
def charsStartWith : List Char → List Char → Bool
| _, [] => true
| [], _ :: _ => false
| c :: cs, p :: ps => c = p && charsStartWith cs ps

/-- `strings.HasPrefix`: the token starts with the given pattern. -/
def strStartsWith (s p : String) : Bool :=
  charsStartWith s.data p.data

/-- Characters after the first occurrence of the given character, or
`none` when it does not occur. -/
def afterChar : List Char → Char → Option (List Char)
| [], _ => none
| c :: cs, sep => if c = sep then some cs else afterChar cs sep

/-- The per-snap emission loop of install-mode step 2: for each essential
snap, emit its path against the type's mount target unless that target
is already mounted; snap types outside the switch emit nothing. -/
def installSnapLines (isBaseMounted isKernelMounted isSnapdMounted : Bool)
    (snaps : List EssentialSnap) : List MountTuple :=
  snaps.filterMap fun s =>
    match s.typ with
    | SnapType.base =>
        if isBaseMounted then none
        else some ⟨s.path, runMnt ++ "/base", none⟩
    | SnapType.kernel =>
        if isKernelMounted then none
        else some ⟨s.path, runMnt ++ "/kernel", none⟩
    | SnapType.snapd =>
        if isSnapdMounted then none
        else some ⟨s.path, runMnt ++ "/snapd", none⟩
    | SnapType.app => none

/-- Steps 3-5 of `generateMountsModeInstall`, shared by the two exits of
step 2: probe `ubuntu-data`; if unmounted emit the tmpfs creation line
and return; otherwise write the Modeenv record and return with no
further output. -/
def installFinish (recoverySystem : String) (env : Env)
    (lines : List MountTuple) : GenOut :=
  match env.isMounted (runMnt ++ "/ubuntu-data") with
  | Except.error e => ⟨lines, none, some e⟩
  | Except.ok isDataMounted =>
    if isDataMounted then
      match env.writeModeenv (runMnt ++ "/ubuntu-data/system-data")
          ⟨"install", recoverySystem, "", ""⟩ with
      | Except.error e => ⟨lines, none, some e⟩
      | Except.ok _ =>
        ⟨lines, some (runMnt ++ "/ubuntu-data/system-data",
                      ⟨"install", recoverySystem, "", ""⟩), none⟩
    else
      ⟨lines ++ [⟨"tmpfs", "/run/mnt/ubuntu-data", some "tmpfs"⟩], none, none⟩

/-- `generateMountsModeInstall`: step 1 probes the seed partition and, if
unmounted, emits its by-label tuple and returns; step 2 probes base,
kernel and snapd and, if any is unmounted, queries the seed loader and
emits the pending essential-snap tuples; steps 3-5 are `installFinish`. -/
def generateMountsModeInstall (recoverySystem : String) (env : Env) : GenOut :=
  match env.isMounted (runMnt ++ "/ubuntu-seed") with
  | Except.error e => ⟨[], none, some e⟩
  | Except.ok isSeedMounted =>
    if isSeedMounted then
      match env.isMounted (runMnt ++ "/base") with
      | Except.error e => ⟨[], none, some e⟩
      | Except.ok isBaseMounted =>
        match env.isMounted (runMnt ++ "/kernel") with
        | Except.error e => ⟨[], none, some e⟩
        | Except.ok isKernelMounted =>
          match env.isMounted (runMnt ++ "/snapd") with
          | Except.error e => ⟨[], none, some e⟩
          | Except.ok isSnapdMounted =>
            if isBaseMounted && isKernelMounted && isSnapdMounted then
              installFinish recoverySystem env []
            else
              match env.seedEssentials (runMnt ++ "/ubuntu-seed") recoverySystem with
              | Except.error e => ⟨[], none, some e⟩
              | Except.ok snaps =>
                installFinish recoverySystem env
                  (installSnapLines isBaseMounted isKernelMounted isSnapdMounted snaps)
    else
      ⟨[⟨"/dev/disk/by-label/ubuntu-seed", runMnt ++ "/ubuntu-seed", none⟩], none, none⟩

/-- `generateMountsModeRecover`: unimplemented placeholder error. -/
def generateMountsModeRecover (_recoverySystem : String) : GenOut :=
  ⟨[], none, some "recover mode mount generation not implemented yet"⟩

/-- `generateMountsModeRun`: step 1.1 probes seed and boot and emits a
by-label tuple for each unmounted one (without returning); step 1.2
probes data and, if unmounted, emits its by-label tuple and returns;
step 2.1 reads Modeenv from the data partition's system-data tree;
step 2.2 emits base and kernel tuples, sourced from the data
partition's snap-blob directory joined with the Modeenv identifiers,
for whichever of the two is unmounted. -/
def generateMountsModeRun (env : Env) : GenOut :=
  let seedDir := runMnt ++ "/ubuntu-seed"
  let bootDir := runMnt ++ "/ubuntu-boot"
  let dataDir := runMnt ++ "/ubuntu-data"
  match env.isMounted seedDir with
  | Except.error e => ⟨[], none, some e⟩
  | Except.ok isSeedMounted =>
    let l1 : List MountTuple :=
      if isSeedMounted then []
      else [⟨"/dev/disk/by-label/" ++ basename seedDir, seedDir, none⟩]
    match env.isMounted bootDir with
    | Except.error e => ⟨l1, none, some e⟩
    | Except.ok isBootMounted =>
      let l2 : List MountTuple :=
        l1 ++ (if isBootMounted then []
               else [⟨"/dev/disk/by-label/" ++ basename bootDir, bootDir, none⟩])
      match env.isMounted dataDir with
      | Except.error e => ⟨l2, none, some e⟩
      | Except.ok isDataMounted =>
        if isDataMounted then
          match env.readModeenv (dataDir ++ "/system-data") with
          | Except.error e => ⟨l2, none, some e⟩
          | Except.ok modeEnv =>
            match env.isMounted (runMnt ++ "/base") with
            | Except.error e => ⟨l2, none, some e⟩
            | Except.ok isBaseMounted =>
              let l3 : List MountTuple :=
                l2 ++ (if isBaseMounted then []
                       else [⟨dataDir ++ "/system-data" ++ snapBlobDir ++ "/" ++ modeEnv.base,
                              runMnt ++ "/base", none⟩])
              match env.isMounted (runMnt ++ "/kernel") with
              | Except.error e => ⟨l3, none, some e⟩
              | Except.ok isKernelMounted =>
                let l4 : List MountTuple :=
                  l3 ++ (if isKernelMounted then []
                         else [⟨dataDir ++ "/system-data" ++ snapBlobDir ++ "/" ++ modeEnv.kernel,
                                runMnt ++ "/kernel", none⟩])
                ⟨l4, none, none⟩
        else
          ⟨l2 ++ [⟨"/dev/disk/by-label/" ++ basename dataDir, dataDir, none⟩], none, none⟩

/-- The recognized boot modes, Go variable `validModes`. -/
def validModes : List String := ["install", "recover", "run"]

/-- `strings.SplitN(t, "=", 2)[1]`: everything after the first `=`
(the code only applies it to tokens whose recognized key contains `=`;
a token with no `=` maps to the empty string). -/
def splitAfterEq (t : String) : String :=
  match afterChar t.data '=' with
  | some cs => String.mk cs
  | none => ""

/-- Result of processing one cmdline token: either the loop body
returns from the function with `ret`, or scanning continues with the
updated `mode` and `sysLabel` accumulators. -/
inductive StepOut where
| ret : Except String (String × String) → StepOut
| cont : String → String → StepOut
deriving DecidableEq

/-- Second half of the loop body of `whichModeAndRecoverSystem`,
reached when the mode branch does not return: record a
`snapd_recovery_system=` value, then return as soon as both `mode` and
`sysLabel` are non-empty. -/
def cmdlineStepTail (t mode sysLabel : String) : StepOut :=
  let sysLabel' :=
    if strStartsWith t "snapd_recovery_system=" then splitAfterEq t else sysLabel
  if mode ≠ "" ∧ sysLabel' ≠ "" then StepOut.ret (Except.ok (mode, sysLabel'))
  else StepOut.cont mode sysLabel'

/-- One iteration of the scanner loop of `whichModeAndRecoverSystem`:
a `snapd_recovery_mode=` token sets `mode` (empty value defaults to
`install`), rejects unknown modes, and returns `("run", "")` at once
for run mode; control then falls through to `cmdlineStepTail`. -/
def cmdlineStep (t mode sysLabel : String) : StepOut :=
  if strStartsWith t "snapd_recovery_mode=" then
    let m0 := splitAfterEq t
    let m := if m0 = "" then "install" else m0
    if !(validModes.contains m) then
      StepOut.ret (Except.error ("cannot use unknown mode \"" ++ m ++ "\""))
    else if m = "run" then
      StepOut.ret (Except.ok ("run", ""))
    else
      cmdlineStepTail t m sysLabel
  else
    cmdlineStepTail t mode sysLabel

/-- The scanner loop of `whichModeAndRecoverSystem` over the remaining
tokens, with the current `mode` and `sysLabel` accumulators; input
exhaustion yields the cannot-detect error. -/
def whichGo : List String → String → String → Except String (String × String)
| [], _, _ => Except.error "cannot detect mode nor recovery system to use"
| t :: ts, mode, sysLabel =>
  match cmdlineStep t mode sysLabel with
  | StepOut.ret r => r
  | StepOut.cont m s => whichGo ts m s

/-- `whichModeAndRecoverSystem` on the token list produced by the
word scanner. -/
def whichModeAndRecoverSystemTokens (tokens : List String) :
    Except String (String × String) :=
  whichGo tokens "" ""

/-- ASCII whitespace, the separator set of `bufio.ScanWords` for the
cmdline inputs considered here. -/
def isSpaceChar (c : Char) : Bool :=
  c = ' ' || c = '\t' || c = '\n' || c = '\r'

/-- Word scanner worker: accumulate the current word in reverse and
close it at each whitespace run. -/
def wordsAux : List Char → List Char → List String
| [], acc => if acc = [] then [] else [String.mk acc.reverse]
| c :: cs, acc =>
  if isSpaceChar c then
    if acc = [] then wordsAux cs []
    else String.mk acc.reverse :: wordsAux cs []
  else
    wordsAux cs (c :: acc)

/-- `bufio.ScanWords`: split the cmdline into maximal runs of
non-whitespace characters. -/
def scanWords (s : String) : List String :=
  wordsAux s.data []

/-- `whichModeAndRecoverSystem`: scan the cmdline bytes word by word. -/
def whichModeAndRecoverSystem (cmdline : String) :
    Except String (String × String) :=
  whichModeAndRecoverSystemTokens (scanWords cmdline)

/-- `generateInitramfsMounts`: classify the mode from the cmdline and
dispatch to the matching generator; a classification error is returned
with nothing emitted. -/
def generateInitramfsMounts (cmdline : String) (env : Env) : GenOut :=
  match whichModeAndRecoverSystem cmdline with
  | Except.error e => ⟨[], none, some e⟩
  | Except.ok (mode, recoverySystem) =>
    if mode = "recover" then generateMountsModeRecover recoverySystem
    else if mode = "install" then generateMountsModeInstall recoverySystem env
    else if mode = "run" then generateMountsModeRun env
    else ⟨[], none, some "internal error: mode in generateInitramfsMounts not handled"⟩

/-- An environment whose mount probe answers from a fixed list of
mounted paths, whose Modeenv reader returns the given record, and whose
seed loader and Modeenv writer succeed trivially: the run-mode scenario
environment. -/
def mkRunEnv (mounted : List String) (me : Modeenv) : Env :=
  { isMounted := fun p => Except.ok (mounted.contains p)
  , readModeenv := fun _ => Except.ok me
  , seedEssentials := fun _ _ => Except.ok []
  , writeModeenv := fun _ _ => Except.ok () }

/-- The Modeenv record of the spec's run-mode scenario:
`base=core20_5.snap kernel=pc-kernel_10.snap`. -/
def sampleModeenv : Modeenv :=
  ⟨"run", "", "core20_5.snap", "pc-kernel_10.snap"⟩

/-- A Modeenv recording different base and kernel identifiers than
`sampleModeenv`. -/
def otherModeenv : Modeenv :=
  ⟨"run", "", "core20_7.snap", "pc-kernel_12.snap"⟩

/-- An environment in which seed, boot, data, base and kernel are all
mounted but the Modeenv on the data partition cannot be read. -/
def badModeenvEnv : Env :=
  { isMounted := fun p => Except.ok
      ((["/run/mnt/ubuntu-seed", "/run/mnt/ubuntu-boot", "/run/mnt/ubuntu-data",
         "/run/mnt/base", "/run/mnt/kernel"] : List String).contains p)
  , readModeenv := fun _ => Except.error "cannot read modeenv"
  , seedEssentials := fun _ _ => Except.ok []
  , writeModeenv := fun _ _ => Except.ok () }

/-- Claim C8: in install mode, when the mount probe reports the seed
partition as not mounted, the generator emits exactly one mount tuple,
`/dev/disk/by-label/ubuntu-seed` against the ubuntu-seed directory
under the runtime mount root, and returns successfully with no Modeenv
write and nothing else emitted. -/
theorem c8_install_unmounted_seed_emits_only_seed (env : Env)
    (recoverySystem : String)
    (h : env.isMounted (runMnt ++ "/ubuntu-seed") = Except.ok false) :
    generateMountsModeInstall recoverySystem env =
      ⟨[⟨"/dev/disk/by-label/ubuntu-seed", runMnt ++ "/ubuntu-seed", none⟩],
       none, none⟩ := by
  simp [generateMountsModeInstall, h]

/-- Witness for C8 at a concrete environment with nothing mounted. -/
theorem c8_witness :
    (mkRunEnv [] sampleModeenv).isMounted (runMnt ++ "/ubuntu-seed") =
      Except.ok false ∧
    generateMountsModeInstall "20231001" (mkRunEnv [] sampleModeenv) =
      ⟨[⟨"/dev/disk/by-label/ubuntu-seed", runMnt ++ "/ubuntu-seed", none⟩],
       none, none⟩ :=
  ⟨by decide,
   c8_install_unmounted_seed_emits_only_seed (mkRunEnv [] sampleModeenv)
     "20231001" (by decide)⟩

/-- Claim C5: in install mode, once seed, base, kernel, snapd and the
data partition are all mounted (and the data partition accepts the
write), the generator writes a Modeenv with mode `install` and the
recovery-system label it was invoked with into the data partition's
system-data tree, emits no mount tuple and returns successfully; that
write is the only recorded side effect. -/
theorem c5_install_converged_writes_modeenv (env : Env)
    (recoverySystem : String)
    (hseed : env.isMounted (runMnt ++ "/ubuntu-seed") = Except.ok true)
    (hbase : env.isMounted (runMnt ++ "/base") = Except.ok true)
    (hkernel : env.isMounted (runMnt ++ "/kernel") = Except.ok true)
    (hsnapd : env.isMounted (runMnt ++ "/snapd") = Except.ok true)
    (hdata : env.isMounted (runMnt ++ "/ubuntu-data") = Except.ok true)
    (hwrite : env.writeModeenv (runMnt ++ "/ubuntu-data/system-data")
        ⟨"install", recoverySystem, "", ""⟩ = Except.ok ()) :
    generateMountsModeInstall recoverySystem env =
      ⟨[], some (runMnt ++ "/ubuntu-data/system-data",
                 ⟨"install", recoverySystem, "", ""⟩), none⟩ := by
  simp [generateMountsModeInstall, installFinish, hseed, hbase, hkernel,
    hsnapd, hdata, hwrite]

/-- Witness for C5 at a concrete fully-mounted environment. -/
theorem c5_witness :
    generateMountsModeInstall "20231001"
      (mkRunEnv ["/run/mnt/ubuntu-seed", "/run/mnt/base", "/run/mnt/kernel",
                 "/run/mnt/snapd", "/run/mnt/ubuntu-data"] sampleModeenv) =
      ⟨[], some (runMnt ++ "/ubuntu-data/system-data",
                 ⟨"install", "20231001", "", ""⟩), none⟩ :=
  c5_install_converged_writes_modeenv _ "20231001" (by decide) (by decide)
    (by decide) (by decide) (by decide) rfl

/-- Claim C10: in run mode, whenever the data partition is mounted and
the Modeenv read fails, the invocation returns that error; the result
is fully determined by the seed, boot and data probes, so the base and
kernel probes are never consulted and the empty-output converged
signal is unreachable, even when base and kernel are already
mounted. -/
theorem c10_run_fails_without_readable_modeenv (env : Env)
    (sm bm : Bool) (e : String)
    (hseed : env.isMounted (runMnt ++ "/ubuntu-seed") = Except.ok sm)
    (hboot : env.isMounted (runMnt ++ "/ubuntu-boot") = Except.ok bm)
    (hdata : env.isMounted (runMnt ++ "/ubuntu-data") = Except.ok true)
    (hme : env.readModeenv (runMnt ++ "/ubuntu-data" ++ "/system-data") =
      Except.error e) :
    generateMountsModeRun env =
      ⟨(if sm then []
        else [⟨"/dev/disk/by-label/" ++ basename (runMnt ++ "/ubuntu-seed"),
               runMnt ++ "/ubuntu-seed", none⟩]) ++
       (if bm then []
        else [⟨"/dev/disk/by-label/" ++ basename (runMnt ++ "/ubuntu-boot"),
               runMnt ++ "/ubuntu-boot", none⟩]),
       none, some e⟩ := by
  simp [generateMountsModeRun, hseed, hboot, hdata, hme]

/-- Witness for C10 at a concrete environment in which seed, boot,
data, base and kernel are all mounted but Modeenv is unreadable. -/
theorem c10_witness :
    badModeenvEnv.isMounted (runMnt ++ "/base") = Except.ok true ∧
    badModeenvEnv.isMounted (runMnt ++ "/kernel") = Except.ok true ∧
    generateMountsModeRun badModeenvEnv =
      ⟨(if true then []
        else [⟨"/dev/disk/by-label/" ++ basename (runMnt ++ "/ubuntu-seed"),
               runMnt ++ "/ubuntu-seed", none⟩]) ++
       (if true then []
        else [⟨"/dev/disk/by-label/" ++ basename (runMnt ++ "/ubuntu-boot"),
               runMnt ++ "/ubuntu-boot", none⟩]),
       none, some "cannot read modeenv"⟩ :=
  ⟨by decide, by decide,
   c10_run_fails_without_readable_modeenv badModeenvEnv true true
     "cannot read modeenv" (by decide) (by decide) (by decide) rfl⟩

/-- Counterexample to claim C1 as stated: with nothing mounted, the
very first run-mode invocation already emits the data-partition mount
tuple together with the seed and boot tuples, so the data tuple is not
reserved for a later invocation in which seed and boot are already
mounted. -/
theorem c1_counterexample :
    (generateMountsModeRun (mkRunEnv [] sampleModeenv)).lines =
      [⟨"/dev/disk/by-label/ubuntu-seed", "/run/mnt/ubuntu-seed", none⟩,
       ⟨"/dev/disk/by-label/ubuntu-boot", "/run/mnt/ubuntu-boot", none⟩,
       ⟨"/dev/disk/by-label/ubuntu-data", "/run/mnt/ubuntu-data", none⟩] ∧
    (⟨"/dev/disk/by-label/ubuntu-data", "/run/mnt/ubuntu-data", none⟩ :
        MountTuple) ∈
      (generateMountsModeRun (mkRunEnv [] sampleModeenv)).lines := by
  decide

/-- Claim C1 as amended: in the run-mode scenario with Modeenv
`base=core20_5.snap kernel=pc-kernel_10.snap`, the first invocation
(nothing mounted) emits the seed, boot and data tuples in one batch;
the second invocation (those three mounted) emits the base and kernel
tuples resolved from the Modeenv identifiers under the data
partition's blob directory; the third invocation emits nothing. -/
theorem c1_run_scenario :
    generateMountsModeRun (mkRunEnv [] sampleModeenv) =
      ⟨[⟨"/dev/disk/by-label/ubuntu-seed", "/run/mnt/ubuntu-seed", none⟩,
        ⟨"/dev/disk/by-label/ubuntu-boot", "/run/mnt/ubuntu-boot", none⟩,
        ⟨"/dev/disk/by-label/ubuntu-data", "/run/mnt/ubuntu-data", none⟩],
       none, none⟩ ∧
    generateMountsModeRun
      (mkRunEnv ["/run/mnt/ubuntu-seed", "/run/mnt/ubuntu-boot",
                 "/run/mnt/ubuntu-data"] sampleModeenv) =
      ⟨[⟨"/run/mnt/ubuntu-data/system-data/var/lib/snapd/snaps/core20_5.snap",
         "/run/mnt/base", none⟩,
        ⟨"/run/mnt/ubuntu-data/system-data/var/lib/snapd/snaps/pc-kernel_10.snap",
         "/run/mnt/kernel", none⟩],
       none, none⟩ ∧
    generateMountsModeRun
      (mkRunEnv ["/run/mnt/ubuntu-seed", "/run/mnt/ubuntu-boot",
                 "/run/mnt/ubuntu-data", "/run/mnt/base", "/run/mnt/kernel"]
        sampleModeenv) =
      ⟨[], none, none⟩ := by
  refine ⟨by decide, by decide, by decide⟩

/-- Claim C7: in run mode, the emitted base and kernel tuples take
their sources from the data partition's system-data snap-blob
directory joined with exactly the Base (resp. Kernel) identifier read
from Modeenv, and the run generator never consults the seed loader:
its result is unchanged under any replacement of the seed-loader
collaborator. -/
theorem c7_run_sources_from_modeenv (env : Env) (me : Modeenv)
    (sm bm : Bool)
    (hseed : env.isMounted (runMnt ++ "/ubuntu-seed") = Except.ok sm)
    (hboot : env.isMounted (runMnt ++ "/ubuntu-boot") = Except.ok bm)
    (hdata : env.isMounted (runMnt ++ "/ubuntu-data") = Except.ok true)
    (hme : env.readModeenv (runMnt ++ "/ubuntu-data" ++ "/system-data") =
      Except.ok me)
    (hbase : env.isMounted (runMnt ++ "/base") = Except.ok false)
    (hkernel : env.isMounted (runMnt ++ "/kernel") = Except.ok false) :
    (∀ f, generateMountsModeRun { env with seedEssentials := f } =
      generateMountsModeRun env) ∧
    (⟨runMnt ++ "/ubuntu-data" ++ "/system-data" ++ snapBlobDir ++ "/" ++
        me.base, runMnt ++ "/base", none⟩ : MountTuple) ∈
      (generateMountsModeRun env).lines ∧
    (⟨runMnt ++ "/ubuntu-data" ++ "/system-data" ++ snapBlobDir ++ "/" ++
        me.kernel, runMnt ++ "/kernel", none⟩ : MountTuple) ∈
      (generateMountsModeRun env).lines := by
  refine ⟨fun f => rfl, ?_, ?_⟩ <;>
    cases sm <;> cases bm <;>
      simp [generateMountsModeRun, hseed, hboot, hdata, hme, hbase, hkernel]

/-- Witness for C7 at a concrete environment with seed, boot and data
mounted and the scenario Modeenv. -/
theorem c7_witness :
    (∀ f, generateMountsModeRun
        { mkRunEnv ["/run/mnt/ubuntu-seed", "/run/mnt/ubuntu-boot",
                    "/run/mnt/ubuntu-data"] sampleModeenv with
          seedEssentials := f } =
      generateMountsModeRun
        (mkRunEnv ["/run/mnt/ubuntu-seed", "/run/mnt/ubuntu-boot",
                   "/run/mnt/ubuntu-data"] sampleModeenv)) ∧
    (⟨runMnt ++ "/ubuntu-data" ++ "/system-data" ++ snapBlobDir ++ "/" ++
        sampleModeenv.base, runMnt ++ "/base", none⟩ : MountTuple) ∈
      (generateMountsModeRun
        (mkRunEnv ["/run/mnt/ubuntu-seed", "/run/mnt/ubuntu-boot",
                   "/run/mnt/ubuntu-data"] sampleModeenv)).lines ∧
    (⟨runMnt ++ "/ubuntu-data" ++ "/system-data" ++ snapBlobDir ++ "/" ++
        sampleModeenv.kernel, runMnt ++ "/kernel", none⟩ : MountTuple) ∈
      (generateMountsModeRun
        (mkRunEnv ["/run/mnt/ubuntu-seed", "/run/mnt/ubuntu-boot",
                   "/run/mnt/ubuntu-data"] sampleModeenv)).lines :=
  c7_run_sources_from_modeenv _ sampleModeenv true true (by decide)
    (by decide) (by decide) rfl (by decide) (by decide)

/-- Every tuple produced by the essential-snap loop targets one of the
base, kernel or snapd mount points, and only when the corresponding
probe flag was false. -/
theorem installSnapLines_target (b k s : Bool) (snaps : List EssentialSnap)
    (l : MountTuple) (hl : l ∈ installSnapLines b k s snaps) :
    (l.target = runMnt ++ "/base" ∧ b = false) ∨
    (l.target = runMnt ++ "/kernel" ∧ k = false) ∨
    (l.target = runMnt ++ "/snapd" ∧ s = false) := by
  unfold installSnapLines at hl
  rcases List.mem_filterMap.mp hl with ⟨a, _, ha⟩
  rcases a with ⟨p, t⟩
  cases t <;> simp only at ha
  · cases b with
    | true => simp_all
    | false => simp at ha; subst ha; simp
  · cases k with
    | true => simp_all
    | false => simp at ha; subst ha; simp
  · cases s with
    | true => simp_all
    | false => simp at ha; subst ha; simp
  · cases ha

/-- Every tuple added by `installFinish` beyond the lines it was handed
is the tmpfs data-partition tuple, and only when the data probe
reported not mounted. -/
theorem installFinish_lines (recoverySystem : String) (env : Env)
    (lines : List MountTuple) (l : MountTuple)
    (hl : l ∈ (installFinish recoverySystem env lines).lines) :
    l ∈ lines ∨
    (l = ⟨"tmpfs", "/run/mnt/ubuntu-data", some "tmpfs"⟩ ∧
     env.isMounted (runMnt ++ "/ubuntu-data") = Except.ok false) := by
  unfold installFinish at hl
  split at hl
  · exact Or.inl hl
  next heq =>
    split at hl
    · split at hl
      · exact Or.inl hl
      · exact Or.inl hl
    next hb =>
      rcases List.mem_append.mp hl with h | h
      · exact Or.inl h
      · refine Or.inr ⟨by simpa using h, ?_⟩
        simp only [Bool.not_eq_true] at hb
        rw [hb] at heq
        exact heq

/-- Soundness of install-mode emission: every emitted tuple's target
was reported unmounted by the probe. -/
theorem install_lines_sound (env : Env) (recoverySystem : String)
    (l : MountTuple)
    (hl : l ∈ (generateMountsModeInstall recoverySystem env).lines) :
    env.isMounted l.target = Except.ok false := by
  unfold generateMountsModeInstall at hl
  split at hl
  · simp at hl
  next hseed =>
    split at hl
    case isTrue =>
      split at hl
      · simp at hl
      next hbase =>
        split at hl
        · simp at hl
        next hkernel =>
          split at hl
          · simp at hl
          next hsnapd =>
            split at hl
            · rcases installFinish_lines _ _ _ _ hl with h | ⟨h1, h2⟩
              · simp at h
              · rw [h1]
                exact h2
            · split at hl
              · simp at hl
              next hsnaps =>
                rcases installFinish_lines _ _ _ _ hl with h | ⟨h1, h2⟩
                · rcases installSnapLines_target _ _ _ _ _ h with
                    ⟨ht, hf⟩ | ⟨ht, hf⟩ | ⟨ht, hf⟩
                  · rw [ht, ← hf]
                    exact hbase
                  · rw [ht, ← hf]
                    exact hkernel
                  · rw [ht, ← hf]
                    exact hsnapd
                · rw [h1]
                  exact h2
    next hsm =>
      simp only [List.mem_singleton] at hl
      rw [hl]
      simp only [Bool.not_eq_true] at hsm
      rw [hsm] at hseed
      exact hseed

/-- Membership in a conditionally-emitted singleton line: the tuple is
the given one and the mounted flag was false. -/
theorem mem_cond_singleton {b : Bool} {t l : MountTuple}
    (h : l ∈ (if b = true then ([] : List MountTuple) else [t])) :
    l = t ∧ b = false := by
  cases b <;> simp_all

/-- Soundness of run-mode emission: every emitted tuple's target was
reported unmounted by the probe. -/
theorem run_lines_sound (env : Env) (l : MountTuple)
    (hl : l ∈ (generateMountsModeRun env).lines) :
    env.isMounted l.target = Except.ok false := by
  simp only [generateMountsModeRun] at hl
  rcases hseed : env.isMounted (runMnt ++ "/ubuntu-seed") with e | sm <;>
    simp only [hseed] at hl
  · exact absurd hl (List.not_mem_nil l)
  rcases hboot : env.isMounted (runMnt ++ "/ubuntu-boot") with e | bm <;>
    simp only [hboot] at hl
  · rcases mem_cond_singleton hl with ⟨h1, h2⟩
    subst h1
    rw [h2] at hseed
    exact hseed
  rcases hdata : env.isMounted (runMnt ++ "/ubuntu-data") with e | dm <;>
    simp only [hdata] at hl
  · rcases List.mem_append.mp hl with h | h
    · rcases mem_cond_singleton h with ⟨h1, h2⟩
      subst h1
      rw [h2] at hseed
      exact hseed
    · rcases mem_cond_singleton h with ⟨h1, h2⟩
      subst h1
      rw [h2] at hboot
      exact hboot
  cases dm with
  | false =>
    simp only [Bool.false_eq_true, if_false] at hl
    rcases List.mem_append.mp hl with h | h
    · rcases List.mem_append.mp h with h' | h'
      · rcases mem_cond_singleton h' with ⟨h1, h2⟩
        subst h1
        rw [h2] at hseed
        exact hseed
      · rcases mem_cond_singleton h' with ⟨h1, h2⟩
        subst h1
        rw [h2] at hboot
        exact hboot
    · simp only [List.mem_singleton] at h
      subst h
      exact hdata
  | true =>
    simp only [if_pos rfl] at hl
    rcases hme : env.readModeenv (runMnt ++ "/ubuntu-data" ++ "/system-data")
        with e | me <;> simp only [hme] at hl
    · rcases List.mem_append.mp hl with h | h
      · rcases mem_cond_singleton h with ⟨h1, h2⟩
        subst h1
        rw [h2] at hseed
        exact hseed
      · rcases mem_cond_singleton h with ⟨h1, h2⟩
        subst h1
        rw [h2] at hboot
        exact hboot
    rcases hbase : env.isMounted (runMnt ++ "/base") with e | baseM <;>
      simp only [hbase] at hl
    · rcases List.mem_append.mp hl with h | h
      · rcases mem_cond_singleton h with ⟨h1, h2⟩
        subst h1
        rw [h2] at hseed
        exact hseed
      · rcases mem_cond_singleton h with ⟨h1, h2⟩
        subst h1
        rw [h2] at hboot
        exact hboot
    rcases hkernel : env.isMounted (runMnt ++ "/kernel") with e | kernelM <;>
      simp only [hkernel] at hl
    · rcases List.mem_append.mp hl with h | h
      · rcases List.mem_append.mp h with h' | h'
        · rcases mem_cond_singleton h' with ⟨h1, h2⟩
          subst h1
          rw [h2] at hseed
          exact hseed
        · rcases mem_cond_singleton h' with ⟨h1, h2⟩
          subst h1
          rw [h2] at hboot
          exact hboot
      · rcases mem_cond_singleton h with ⟨h1, h2⟩
        subst h1
        rw [h2] at hbase
        exact hbase
    rcases List.mem_append.mp hl with h | h
    · rcases List.mem_append.mp h with h' | h'
      · rcases List.mem_append.mp h' with h'' | h''
        · rcases mem_cond_singleton h'' with ⟨h1, h2⟩
          subst h1
          rw [h2] at hseed
          exact hseed
        · rcases mem_cond_singleton h'' with ⟨h1, h2⟩
          subst h1
          rw [h2] at hboot
          exact hboot
      · rcases mem_cond_singleton h' with ⟨h1, h2⟩
        subst h1
        rw [h2] at hbase
        exact hbase
    · rcases mem_cond_singleton h with ⟨h1, h2⟩
      subst h1
      rw [h2] at hkernel
      exact hkernel

/-- Claim C4: for every target path that the mount probe reports as
already mounted, neither the install generator nor the run generator
emits a mount tuple whose target is that path, in any invocation. -/
theorem c4_no_remount_of_mounted_target (env : Env)
    (recoverySystem p : String)
    (hp : env.isMounted p = Except.ok true) :
    (∀ l ∈ (generateMountsModeInstall recoverySystem env).lines,
      l.target ≠ p) ∧
    (∀ l ∈ (generateMountsModeRun env).lines, l.target ≠ p) := by
  constructor <;> intro l hl hlp
  · have h := install_lines_sound env recoverySystem l hl
    rw [hlp, hp] at h
    simp at h
  · have h := run_lines_sound env l hl
    rw [hlp, hp] at h
    simp at h

/-- Witness for C4: with the seed partition mounted, both generators
still emit only tuples whose target differs from the seed mount
point. -/
theorem c4_witness :
    (mkRunEnv ["/run/mnt/ubuntu-seed"] sampleModeenv).isMounted
      "/run/mnt/ubuntu-seed" = Except.ok true ∧
    (∀ l ∈ (generateMountsModeInstall "20231001"
        (mkRunEnv ["/run/mnt/ubuntu-seed"] sampleModeenv)).lines,
      l.target ≠ "/run/mnt/ubuntu-seed") ∧
    (∀ l ∈ (generateMountsModeRun
        (mkRunEnv ["/run/mnt/ubuntu-seed"] sampleModeenv)).lines,
      l.target ≠ "/run/mnt/ubuntu-seed") :=
  ⟨by decide,
   (c4_no_remount_of_mounted_target
     (mkRunEnv ["/run/mnt/ubuntu-seed"] sampleModeenv) "20231001"
     "/run/mnt/ubuntu-seed" (by decide)).1,
   (c4_no_remount_of_mounted_target
     (mkRunEnv ["/run/mnt/ubuntu-seed"] sampleModeenv) "20231001"
     "/run/mnt/ubuntu-seed" (by decide)).2⟩

/-- The scanner state after processing a token list without returning:
`some (mode, sysLabel)` when every step continued, `none` when some
step returned early (with a result or an error). -/
def fallsThrough : List String → String → String → Option (String × String)
| [], m, s => some (m, s)
| t :: ts, m, s =>
  match cmdlineStep t m s with
  | StepOut.ret _ => none
  | StepOut.cont m' s' => fallsThrough ts m' s'

/-- Scanning a concatenation whose first part falls through continues
on the rest from the accumulated state. -/
theorem whichGo_append (pre rest : List String) (m s m' s' : String)
    (h : fallsThrough pre m s = some (m', s')) :
    whichGo (pre ++ rest) m s = whichGo rest m' s' := by
  induction pre generalizing m s with
  | nil =>
    simp only [fallsThrough, Option.some.injEq, Prod.mk.injEq] at h
    rw [h.1, h.2]
    rfl
  | cons t ts ih =>
    simp only [fallsThrough] at h
    rcases hstep : cmdlineStep t m s with r | ⟨m1, s1⟩ <;> rw [hstep] at h
    · cases h
    · simp only [List.cons_append, whichGo, hstep]
      exact ih _ _ h

/-- Claim C6 as amended: a `snapd_recovery_mode=run` token classifies
the cmdline as run mode with an empty recovery-system label and stops
the scan at that token (whatever follows is ignored), provided no
earlier token already made the parser return (by completing a
mode+label pair or by carrying an invalid mode value). -/
theorem c6_run_short_circuits (pre post : List String) (m' s' : String)
    (h : fallsThrough pre "" "" = some (m', s')) :
    whichModeAndRecoverSystemTokens
      (pre ++ "snapd_recovery_mode=run" :: post) = Except.ok ("run", "") := by
  unfold whichModeAndRecoverSystemTokens
  rw [whichGo_append pre ("snapd_recovery_mode=run" :: post) "" "" m' s' h]
  have hstep : cmdlineStep "snapd_recovery_mode=run" m' s' =
      StepOut.ret (Except.ok ("run", "")) := rfl
  simp only [whichGo, hstep]

/-- Witness for C6: the single-token cmdline `snapd_recovery_mode=run`
(no recovery-system token at all) classifies as run mode. -/
theorem c6_witness :
    fallsThrough [] "" "" = some ("", "") ∧
    whichModeAndRecoverSystemTokens
      ([] ++ "snapd_recovery_mode=run" :: []) = Except.ok ("run", "") :=
  ⟨rfl, c6_run_short_circuits [] [] "" "" rfl⟩

/-- Counterexample to claim C6 as stated: a cmdline containing
`snapd_recovery_mode=run` is not always classified as run — if an
earlier mode+label pair completed first, the parser returns that pair
and never reaches the run token. -/
theorem c6_counterexample :
    whichModeAndRecoverSystemTokens
      ["snapd_recovery_mode=install", "snapd_recovery_system=20231001",
       "snapd_recovery_mode=run"] = Except.ok ("install", "20231001") ∧
    whichModeAndRecoverSystemTokens
      ["snapd_recovery_mode=install", "snapd_recovery_system=20231001",
       "snapd_recovery_mode=run"] ≠ Except.ok ("run", "") := by
  refine ⟨by decide, by decide⟩

/-- Claim C9 as amended: a `snapd_recovery_mode=<v>` token with a
non-empty unrecognized value `v` makes classification fail with the
unknown-mode error (distinct from the mode-absent error), and the
entry point then emits no mount tuple — provided no earlier token
already made the parser return. -/
theorem c9_unknown_mode_fails (pre post : List String)
    (t v m' s' : String) (env : Env)
    (hpre : fallsThrough pre "" "" = some (m', s'))
    (ht : strStartsWith t "snapd_recovery_mode=" = true)
    (hv : splitAfterEq t = v)
    (hne : v ≠ "")
    (hnv : validModes.contains v = false) :
    whichModeAndRecoverSystemTokens (pre ++ t :: post) =
      Except.error ("cannot use unknown mode \"" ++ v ++ "\"") ∧
    ("cannot use unknown mode \"" ++ v ++ "\"" : String) ≠
      "cannot detect mode nor recovery system to use" ∧
    (∀ cmdline : String, scanWords cmdline = pre ++ t :: post →
      generateInitramfsMounts cmdline env =
        ⟨[], none, some ("cannot use unknown mode \"" ++ v ++ "\"")⟩) := by
  have hmain : whichModeAndRecoverSystemTokens (pre ++ t :: post) =
      Except.error ("cannot use unknown mode \"" ++ v ++ "\"") := by
    unfold whichModeAndRecoverSystemTokens
    rw [whichGo_append pre (t :: post) "" "" m' s' hpre]
    have hstep : cmdlineStep t m' s' =
        StepOut.ret (Except.error ("cannot use unknown mode \"" ++ v ++ "\"")) := by
      unfold cmdlineStep
      rw [ht, hv]
      simp only [if_true]
      rw [if_neg hne, hnv]
      rfl
    simp only [whichGo, hstep]
  have hdist : ("cannot use unknown mode \"" ++ v ++ "\"" : String) ≠
      "cannot detect mode nor recovery system to use" := by
    intro heq
    have h1 : charsStartWith
        ("cannot use unknown mode \"" ++ v ++ "\"").data
        ("cannot use").data = true := rfl
    rw [heq] at h1
    exact absurd h1 (by decide)
  refine ⟨hmain, hdist, fun cmdline hcl => ?_⟩
  unfold generateInitramfsMounts whichModeAndRecoverSystem
  rw [hcl, hmain]

/-- Witness for C9 at the concrete cmdline `snapd_recovery_mode=bogus`. -/
theorem c9_witness :
    whichModeAndRecoverSystemTokens
      ([] ++ "snapd_recovery_mode=bogus" :: []) =
      Except.error ("cannot use unknown mode \"" ++ "bogus" ++ "\"") ∧
    ("cannot use unknown mode \"" ++ "bogus" ++ "\"" : String) ≠
      "cannot detect mode nor recovery system to use" ∧
    (∀ cmdline : String,
      scanWords cmdline = [] ++ "snapd_recovery_mode=bogus" :: [] →
      generateInitramfsMounts cmdline (mkRunEnv [] sampleModeenv) =
        ⟨[], none, some ("cannot use unknown mode \"" ++ "bogus" ++ "\"")⟩) :=
  c9_unknown_mode_fails [] [] "snapd_recovery_mode=bogus" "bogus" "" ""
    (mkRunEnv [] sampleModeenv) rfl (by decide) (by decide) (by decide)
    (by decide)

/-- Counterexample to claim C9 as stated: a cmdline containing an
unrecognized `snapd_recovery_mode=bogus` token does not always fail —
a preceding `snapd_recovery_mode=run` token short-circuits the scan
and classification succeeds. -/
theorem c9_counterexample :
    whichModeAndRecoverSystemTokens
      ["snapd_recovery_mode=run", "snapd_recovery_mode=bogus"] =
      Except.ok ("run", "") ∧
    whichModeAndRecoverSystemTokens
      ["snapd_recovery_mode=run", "snapd_recovery_mode=bogus"] ≠
      Except.error "cannot use unknown mode \"bogus\"" := by
  refine ⟨by decide, by decide⟩

/-- A token that never makes the scanner loop return: its mode value
(if it is a mode token) is a recognized non-run one, and its
recovery-system value (if it is a system token) is empty. -/
def modeOnlyToken (t : String) : Prop :=
  (strStartsWith t "snapd_recovery_mode=" = false ∨
    ((if splitAfterEq t = "" then "install" else splitAfterEq t) = "install" ∨
     (if splitAfterEq t = "" then "install" else splitAfterEq t) = "recover")) ∧
  (strStartsWith t "snapd_recovery_system=" = false ∨ splitAfterEq t = "")

instance modeOnlyTokenDec (t : String) : Decidable (modeOnlyToken t) := by
  unfold modeOnlyToken
  infer_instance

/-- On such a token, the scanner loop body always continues with an
empty label and either the same mode or the token's recognized non-run
mode. -/
theorem cmdlineStep_modeOnly (t m : String) (ht : modeOnlyToken t) :
    cmdlineStep t m "" = StepOut.cont m "" ∨
    cmdlineStep t m "" = StepOut.cont "install" "" ∨
    cmdlineStep t m "" = StepOut.cont "recover" "" := by
  obtain ⟨h1, h2⟩ := ht
  have hsys : (if strStartsWith t "snapd_recovery_system=" = true
      then splitAfterEq t else ("" : String)) = "" := by
    cases hst : strStartsWith t "snapd_recovery_system=" with
    | true =>
      rcases h2 with hq | hq
      · rw [hst] at hq
        cases hq
      · simpa using hq
    | false => simp
  cases hmt : strStartsWith t "snapd_recovery_mode=" with
  | false =>
    left
    simp only [cmdlineStep, cmdlineStepTail, hmt, Bool.false_eq_true,
      if_false, hsys]
    rw [if_neg (by simp)]
  | true =>
    have h1' := h1
    rcases h1' with hq | hq
    case inl =>
      rw [hmt] at hq
      cases hq
    rcases hq with hmode | hmode
    · right; left
      simp only [cmdlineStep, cmdlineStepTail, hmt, if_true, hmode, hsys]
      rw [if_neg (show ¬((!validModes.contains "install") = true) from
            by decide),
          if_neg (show ¬(("install" : String) = "run") from by decide),
          if_neg (by simp)]
    · right; right
      simp only [cmdlineStep, cmdlineStepTail, hmt, if_true, hmode, hsys]
      rw [if_neg (show ¬((!validModes.contains "recover") = true) from
            by decide),
          if_neg (show ¬(("recover" : String) = "run") from by decide),
          if_neg (by simp)]

/-- Scanning any list of such tokens with an empty label accumulator
ends in the cannot-detect error, whatever mode has accumulated. -/
theorem whichGo_modeOnly (tokens : List String) (m : String)
    (htok : ∀ t ∈ tokens, modeOnlyToken t) :
    whichGo tokens m "" =
      Except.error "cannot detect mode nor recovery system to use" := by
  induction tokens generalizing m with
  | nil => rfl
  | cons t ts ih =>
    have htail : ∀ s ∈ ts, modeOnlyToken s := fun s hs =>
      htok s (List.mem_cons_of_mem t hs)
    rcases cmdlineStep_modeOnly t m (htok t (List.mem_cons_self t ts)) with
      hstep | hstep | hstep <;> simp only [whichGo, hstep] <;> exact ih _ htail

/-- Claim C2 as amended: a cmdline whose tokens carry only recognized
non-run mode values (install, recover, or the empty value defaulting
to install) and no non-empty recovery-system value — in particular one
containing a recognized non-run mode token but no system token — is
not classified successfully: the parser falls off the end of the input
and fails with the cannot-detect error. -/
theorem c2_mode_without_label_errors (pre post : List String) (t : String)
    (ht : strStartsWith t "snapd_recovery_mode=" = true)
    (htok : ∀ s ∈ pre ++ t :: post, modeOnlyToken s) :
    whichModeAndRecoverSystemTokens (pre ++ t :: post) =
      Except.error "cannot detect mode nor recovery system to use" :=
  whichGo_modeOnly (pre ++ t :: post) "" htok

/-- Witness for C2 at the single-token cmdline
`snapd_recovery_mode=install`. -/
theorem c2_witness :
    strStartsWith "snapd_recovery_mode=install" "snapd_recovery_mode=" =
      true ∧
    whichModeAndRecoverSystemTokens
      ([] ++ "snapd_recovery_mode=install" :: []) =
      Except.error "cannot detect mode nor recovery system to use" :=
  ⟨by decide,
   c2_mode_without_label_errors [] [] "snapd_recovery_mode=install"
     (by decide) (by decide)⟩

/-- Counterexample to claim C2 as stated: the cmdline
`snapd_recovery_mode=install` (recognized non-run mode, no
recovery-system token) is not classified successfully as install —
the parser returns the cannot-detect error. -/
theorem c2_counterexample :
    whichModeAndRecoverSystemTokens ["snapd_recovery_mode=install"] =
      Except.error "cannot detect mode nor recovery system to use" ∧
    whichModeAndRecoverSystemTokens ["snapd_recovery_mode=install"] ≠
      Except.ok ("install", "") := by
  refine ⟨by decide, by decide⟩

/-- Claim C3 as amended: each generator's observable behaviour is a
function of its collaborators' answers alone — two invocations whose
mount probe, Modeenv reader, seed loader and Modeenv writer answer
identically (as they do when the live mount-table and on-disk state
are unchanged between the calls) produce identical output. -/
theorem c3_generators_deterministic (env1 env2 : Env)
    (recoverySystem : String)
    (hm : ∀ p, env1.isMounted p = env2.isMounted p)
    (hr : ∀ d, env1.readModeenv d = env2.readModeenv d)
    (hs : ∀ a b, env1.seedEssentials a b = env2.seedEssentials a b)
    (hw : ∀ a me, env1.writeModeenv a me = env2.writeModeenv a me) :
    generateMountsModeInstall recoverySystem env1 =
      generateMountsModeInstall recoverySystem env2 ∧
    generateMountsModeRun env1 = generateMountsModeRun env2 := by
  obtain ⟨m1, r1, s1, w1⟩ := env1
  obtain ⟨m2, r2, s2, w2⟩ := env2
  have hm' : m1 = m2 := funext hm
  have hr' : r1 = r2 := funext hr
  have hs' : s1 = s2 := funext fun a => funext (hs a)
  have hw' : w1 = w2 := funext fun a => funext (hw a)
  subst hm'
  subst hr'
  subst hs'
  subst hw'
  exact ⟨rfl, rfl⟩

/-- Witness for C3: the two generators applied twice to one concrete
environment. -/
theorem c3_witness :
    generateMountsModeInstall "20231001"
      (mkRunEnv ["/run/mnt/ubuntu-seed"] sampleModeenv) =
      generateMountsModeInstall "20231001"
        (mkRunEnv ["/run/mnt/ubuntu-seed"] sampleModeenv) ∧
    generateMountsModeRun (mkRunEnv ["/run/mnt/ubuntu-seed"] sampleModeenv) =
      generateMountsModeRun (mkRunEnv ["/run/mnt/ubuntu-seed"] sampleModeenv) :=
  c3_generators_deterministic
    (mkRunEnv ["/run/mnt/ubuntu-seed"] sampleModeenv)
    (mkRunEnv ["/run/mnt/ubuntu-seed"] sampleModeenv) "20231001"
    (fun _ => rfl) (fun _ => rfl) (fun _ _ => rfl) (fun _ _ => rfl)

/-- Counterexample to claim C3 as stated: two environments whose mount
probes answer identically but whose on-disk Modeenv records differ
make the run generator emit different outputs, so fixing the mount
table alone does not fix the emitted output. -/
theorem c3_counterexample :
    (mkRunEnv ["/run/mnt/ubuntu-seed", "/run/mnt/ubuntu-boot",
               "/run/mnt/ubuntu-data"] sampleModeenv).isMounted =
      (mkRunEnv ["/run/mnt/ubuntu-seed", "/run/mnt/ubuntu-boot",
                 "/run/mnt/ubuntu-data"] otherModeenv).isMounted ∧
    generateMountsModeRun
        (mkRunEnv ["/run/mnt/ubuntu-seed", "/run/mnt/ubuntu-boot",
                   "/run/mnt/ubuntu-data"] sampleModeenv) ≠
      generateMountsModeRun
        (mkRunEnv ["/run/mnt/ubuntu-seed", "/run/mnt/ubuntu-boot",
                   "/run/mnt/ubuntu-data"] otherModeenv) :=
  ⟨rfl, by decide⟩

end Snapd
